import Mathlib

/-!
Verification development for the `sketch` micro web framework
(`sketch/router.py`, `sketch/application.py`, `sketch/response.py`,
`sketch/exceptions.py`, `sketch/helpers.py`, `sketch/http_parser.py`,
`sketch/server.py`).

Shallow-embedding conventions:
* Python strings are Lean `String`s; byte strings arriving from the wire
  parser are modelled after decoding (decoding with `utf-8` is the identity
  at this level of abstraction).
* A compiled route pattern is the fragment of regular expressions that
  `UrlDispatcher._format_pattern` can actually emit over regex-neutral path
  characters: a sequence of literal characters and named groups
  `(?P<name>\w+)`.  Every path appearing in the claims (`/foo`, `/bar`,
  `/alice`, `/{x}`, `/{username}` ...) contains no regex metacharacters, so
  on those inputs this token model coincides with Python `re` on the emitted
  pattern string.
* `re.match` semantics (anchored at the start, prefix match, greedy `\w+`
  with backtracking) is implemented directly on the token list.
* Exceptions are values of an inductive type; raising is returning such a
  value; `try/except` is case analysis on the returned value.
* `traceback.format_exc()` reads ambient interpreter state, so the formatted
  trace is threaded through as an explicit `String` argument.
-/

namespace Sketch

/-- A token of a compiled route pattern: a literal character, or a named
capturing group `(?P<name>\w+)` produced for a `{name}` placeholder. -/
inductive Tok where
  | lit (c : Char)
  | grp (name : String)
deriving DecidableEq, Repr

/-- Captured named groups of a successful match, in group order
(`match.groupdict()`). -/
abbrev Groups := List (String × String)

/-- Python `\w` on the ASCII range: letters, digits and underscore.  The
claims only exercise ASCII paths, where this agrees with Python `re`. -/
def pyWordChar (c : Char) : Bool :=
  c.isAlphanum || c = '_'

/-- Greedy-with-backtracking consumption of a named group `(?P<name>\w+)`.
`run` is the maximal run of word characters at the current position, `rest`
what follows it, and `k` the matcher for the remaining tokens.  Lengths are
tried longest first (greedy), down to 1 (`\w+` needs at least one). -/
def grpConsume (name : String) (k : List Char → Option Groups)
    (run rest : List Char) : Nat → Option Groups
  | 0 => none
  | j + 1 =>
    match k (run.drop (j + 1) ++ rest) with
    | some g => some ((name, String.mk (run.take (j + 1))) :: g)
    | none => grpConsume name k run rest j

/-- Matcher for one token, given the matcher `k` for the remaining tokens. -/
def applyTok (t : Tok) (k : List Char → Option Groups) :
    List Char → Option Groups :=
  match t with
  | .lit c => fun s =>
      match s with
      | [] => none
      | c' :: s' => if c' = c then k s' else none
  | .grp name => fun s =>
      grpConsume name k (s.takeWhile pyWordChar) (s.dropWhile pyWordChar)
        (s.takeWhile pyWordChar).length

/-- `re.match(pattern, s)` for a compiled pattern: anchored at the start of
`s`, succeeds as soon as all tokens are consumed (prefix match, no `$`
anchor), returning the captured groups.  `none` models `re.match` returning
`None`. -/
def pmatch (toks : List Tok) (s : List Char) : Option Groups :=
  (toks.foldr applyTok (fun _ => some [])) s

/-- Scanner behind `UrlDispatcher._format_pattern`, fuelled for structural
recursion (fuel = remaining input length always suffices, every step consumes
at least one character).  `pending` holds, in reverse, the literal characters
seen since the last `{name}` placeholder (the code's `path[last_pos:
match.start()]` slice).  Mirroring the Python loop, the literals pending when
the input ends are DROPPED: the source never appends `path[last_pos:]` after
the `finditer` loop. -/
def fmtAux : Nat → List Char → List Char → List Tok
  | 0, _, _ => []
  | _ + 1, [], _pending => []
  | fuel + 1, c :: rest, pending =>
    if c = '{' then
      let name := rest.takeWhile pyWordChar
      match name, rest.dropWhile pyWordChar with
      | _ :: _, '}' :: rest2 =>
        pending.reverse.map Tok.lit ++ [Tok.grp (String.mk name)] ++
          fmtAux fuel rest2 []
      | _, _ => fmtAux fuel rest (c :: pending)
    else fmtAux fuel rest (c :: pending)

/-- `UrlDispatcher._format_pattern(path)`: replaces each `{name}` placeholder
with a named group token and keeps the literal text found BEFORE each
placeholder; literal text after the last placeholder (all of it, for a
placeholder-free path) is lost, exactly as in the source. -/
def formatPattern (path : String) : List Tok :=
  fmtAux path.length path.data []

/-- Following the spec's words, for comparison with `formatPattern`:
"compiles `pathPattern` by replacing every `{name}` placeholder with a
capturing group that matches one-or-more word characters, leaving ALL other
characters as literal-match text".  Identical scanner, except that the
trailing literals are kept when the input ends. -/
def specFmtAux : Nat → List Char → List Char → List Tok
  | 0, _, pending => pending.reverse.map Tok.lit
  | _ + 1, [], pending => pending.reverse.map Tok.lit
  | fuel + 1, c :: rest, pending =>
    if c = '{' then
      let name := rest.takeWhile pyWordChar
      match name, rest.dropWhile pyWordChar with
      | _ :: _, '}' :: rest2 =>
        pending.reverse.map Tok.lit ++ [Tok.grp (String.mk name)] ++
          specFmtAux fuel rest2 []
      | _, _ => specFmtAux fuel rest (c :: pending)
    else specFmtAux fuel rest (c :: pending)

/-- Spec-side pattern compiler (see `specFmtAux`). -/
def specFormatPattern (path : String) : List Tok :=
  specFmtAux path.length path.data []

/-! ### Request / Response / exception model -/

/-- `Request` (`sketch/request.py`): the fields the dispatch pipeline reads.
`rawPath` is `request.url.raw_path`; the URL-structure parser (`yarl`) is an
external collaborator, so requests are modelled directly by their raw path.
`matchInfo` starts empty and is assigned by `Application._handler`. -/
structure Request where
  method : String
  rawPath : String
  matchInfo : List (String × String) := []
deriving DecidableEq, Repr

/-- `Response` (`sketch/response.py`): status, optional body, content type,
user headers in insertion order, protocol version.  Defaults are the
constructor defaults of `Response.__init__`. -/
structure Response where
  version : String := "1.1"
  status : Nat := 200
  body : Option String := none
  contentType : String := "text/plain"
  headers : List (String × String) := []
deriving DecidableEq, Repr

/-- Exceptions that can flow through `Application._handler`.  `http` covers
the `HTTPException` hierarchy of `sketch/exceptions.py` (status code fixed by
the variant, optional reason and content type); the others are ordinary
Python exceptions, carrying their `str(exc)` description. -/
inductive PyExc where
  | http (status : Nat) (reason : Option String) (contentType : Option String)
  | typeError (desc : String)
  | nameError (desc : String)
  | userError (desc : String)
deriving DecidableEq, Repr

/-- Whether an exception is an `HTTPException` (for the first `except` arm of
`Application._handler`). -/
def isHttpExc : PyExc → Bool
  | .http _ _ _ => true
  | _ => false

/-- `str(exc)`: the textual description of an exception.  For an
`HTTPException`, `Exception.__init__(self, reason)` makes it the reason
(`str(None) = "None"` when absent). -/
def excDesc : PyExc → String
  | .http _ reason _ => reason.getD "None"
  | .typeError d => d
  | .nameError d => d
  | .userError d => d

/-- The `Response` an `HTTPException` IS (`HTTPException.__init__` calls
`Response.__init__(body=reason, status=status_code,
content_type=content_type or "text/plain")`). -/
def httpResponse (status : Nat) (reason contentType : Option String) :
    Response :=
  { status := status, body := reason,
    contentType := contentType.getD "text/plain" }

/-- `HTTPNotFound(reason=...)`: status code 404, no explicit content type. -/
def httpNotFound (reason : Option String) : PyExc :=
  .http 404 reason none

/-! ### Error formatting (`sketch/helpers.py`) -/

/-- `server_exception_templ.format(exc=..., traceback=...)`: the literal
template of `sketch/helpers.py` with both holes substituted. -/
def serverExceptionTempl (exc traceback : String) : String :=
  "\n<div>\n    <h1>500 Internal server error</h1>\n    <span>Server got itself in trouble : <b>"
    ++ exc ++ "</b><span>\n    <p>" ++ traceback ++ "</p>\n</div>\n"

/-- `trace.replace("\n", "</br>")`. -/
def replaceNewlines (s : String) : String :=
  String.mk (s.data.foldr
    (fun c acc => if c = '\n' then '<' :: '/' :: 'b' :: 'r' :: '>' :: acc
      else c :: acc) [])

/-- `format_exception(exc)` with the ambient `traceback.format_exc()` result
passed explicitly as `tr`: a fresh 500 `text/html` response whose body is the
template filled with the exception's description and the newline-rewritten
trace. -/
def formatException (desc tr : String) : Response :=
  { status := 500, contentType := "text/html",
    body := some (serverExceptionTempl desc (replaceNewlines tr)) }

/-! ### Router (`sketch/router.py`) -/

/-- The route table `UrlDispatcher._routes`: a Python dict from
`(method, compiled_pattern)` to handler, i.e. an insertion-ordered
association list with key-update-in-place semantics (`dictInsert`). -/
abbrev RouteTable (H : Type) := List ((String × List Tok) × H)

/-- Python dict assignment `d[k] = v`: replace in place when the key exists,
append otherwise. -/
def dictInsert {K V : Type} [DecidableEq K] :
    List (K × V) → K → V → List (K × V)
  | [], k, v => [(k, v)]
  | (k', v') :: rest, k, v =>
    if k' = k then (k, v) :: rest else (k', v') :: dictInsert rest k v

/-- `UrlDispatcher.add_route(method, path, handler)`. -/
def addRoute {H : Type} (routes : RouteTable H) (method path : String)
    (h : H) : RouteTable H :=
  dictInsert routes (method, formatPattern path) h

/-- Result of `UrlDispatcher.resolve`: `noneReturned` models the implicit
`return None` when the table is empty (the `for` loop body never runs);
`raised e` models `raise e`; `found groups handler` models
`return match.groupdict(), handler`. -/
inductive ResolveOutcome (H : Type) where
  | noneReturned
  | raised (e : PyExc)
  | found (groups : Groups) (handler : H)
deriving DecidableEq, Repr

/-- `UrlDispatcher.resolve(request)`.  The loop body of the source ends in
`raise` or `return` on EVERY path, so only the first entry of the table is
ever consulted; the match on `first :: _rest` mirrors that — `_rest` is
unused exactly as the remaining dict entries are unreachable. -/
def resolve {H : Type} (routes : RouteTable H) (req : Request) :
    ResolveOutcome H :=
  match routes with
  | [] => .noneReturned
  | ((method, pat), handler) :: _rest =>
    match pmatch pat req.rawPath.data with
    | none => .raised (httpNotFound (some ("Could not find " ++ req.rawPath)))
    | some groups =>
      if method ≠ req.method then
        .raised (httpNotFound
          (some (req.method ++ " not allowed for " ++ req.rawPath)))
      else .found groups handler

/-! ### Application dispatch (`sketch/application.py`) -/

/-- What a call of a handler (or of a fully built middleware chain) does:
return a `Response`, return some non-`Response` value, or raise. -/
inductive HandlerResult where
  | ret (r : Response)
  | retOther
  | raise (e : PyExc)
deriving DecidableEq, Repr

/-- An application handler: `async def handler(request)`. -/
abbrev Handler := Request → HandlerResult

/-- A middleware: called as `md(request, handler=downstream)`. -/
abbrev Middleware := Request → Handler → HandlerResult

/-- The middleware-chain construction of `Application._handler`:
`for md in self._middlewares: handler = partial(md, handler=handler)`, a left
fold in list order (each step wraps the previous chain, so the LAST list
element ends up outermost).  NOTE: the source module never imports
`functools.partial` (only `partialmethod` and `wraps`), so at runtime this
loop raises `NameError`; the fold models the line as written, granting the
import. -/
def runChain (mds : List Middleware) (h : Handler) : Handler :=
  mds.foldl (fun acc md => fun req => md req acc) h

/-- What `Application._handler` hands on: `wrote r` means
`response_writer(resp)` ran with `r`; `escaped d` means an exception left
`_handler` itself (only the post-`try` `RuntimeError` for a non-`Response`
result can do so). -/
inductive Outcome where
  | wrote (r : Response)
  | escaped (desc : String)
deriving DecidableEq, Repr

/-- `str(exc)` for the `TypeError` raised by
`match_info, handler = None` when `resolve` returns `None`. -/
def unpackNoneDesc : String := "cannot unpack non-iterable NoneType object"

/-- The `try/except` translation of `Application._handler`'s two `except`
arms: an `HTTPException` becomes the response it already is; any other
exception goes through `format_exception` (trace `tr`). -/
def caughtResponse (tr : String) : PyExc → Response
  | .http s reason ct => httpResponse s reason ct
  | e => formatException (excDesc e) tr

/-- `Application._handler(request, response_writer)`: resolve, store
`match_info`, build the middleware chain, await it, translate exceptions,
check the result is a `Response`, and hand it to the writer.  `tr` is the
ambient `traceback.format_exc()` text used by the generic-failure arm. -/
def appHandler (routes : RouteTable Handler) (mds : List Middleware)
    (req : Request) (tr : String) : Outcome :=
  match resolve routes req with
  | .noneReturned => .wrote (formatException unpackNoneDesc tr)
  | .raised e => .wrote (caughtResponse tr e)
  | .found mi h =>
    match runChain mds h { req with matchInfo := mi } with
    | .raise e => .wrote (caughtResponse tr e)
    | .ret r => .wrote r
    | .retOther => .escaped "expect Response instance"

/-! ### Response serialization (`sketch/response.py`) -/

/-- The fragment of `http.server.BaseHTTPRequestHandler.responses` (status
code to reason phrase) that the development touches; `List.lookup` models
`dict.get`. -/
def webResponses : List (Nat × String) :=
  [(200, "OK"), (201, "Created"), (204, "No Content"),
   (301, "Moved Permanently"), (302, "Found"), (400, "Bad Request"),
   (403, "Forbidden"), (404, "Not Found"), (405, "Method Not Allowed"),
   (500, "Internal Server Error")]

/-- `web_responses.get(status)`. -/
def statusMessage (s : Nat) : Option String :=
  webResponses.lookup s

/-- One user header line `f"{header}: {value}"`. -/
def headerLine (kv : String × String) : String :=
  kv.1 ++ ": " ++ kv.2

/-- `Response.__str__`.  Faithful failure modes: unpacking
`web_responses.get(status)` raises `TypeError` when the status is unknown,
and `len(self._body)` raises `TypeError` when the body is `None` — both
modelled as `.error`.  Otherwise the exact line list of the source, joined
with `"\n"`; `len` of a Python `str` is its character count. -/
def strResponse (r : Response) : Except String String :=
  match statusMessage r.status with
  | none => .error "TypeError: cannot unpack non-iterable NoneType object"
  | some msg =>
    match r.body with
    | none => .error "TypeError: object of type NoneType has no len()"
    | some b =>
      .ok (String.intercalate "\n"
        (["HTTP/" ++ r.version ++ " " ++ toString r.status ++ " " ++ msg,
          "Content-Type: " ++ r.contentType,
          "Content-Length: " ++ toString b.length,
          "Connection: close"]
         ++ r.headers.map headerLine
         ++ ["\n" ++ b]))

/-- UTF-8 byte length of a string (what `str(response).encode("utf-8")`
actually puts on the wire for the body). -/
def utf8Length (s : String) : Nat :=
  s.data.foldl (fun n c => n + c.utf8Size) 0

/-- Following the spec's words, for comparison with `strResponse`:
"`Content-Length` (body byte length)" — identical serializer except that the
`Content-Length` header carries the body's byte length. -/
def specStrResponse (r : Response) : Except String String :=
  match statusMessage r.status with
  | none => .error "TypeError: cannot unpack non-iterable NoneType object"
  | some msg =>
    match r.body with
    | none => .error "TypeError: object of type NoneType has no len()"
    | some b =>
      .ok (String.intercalate "\n"
        (["HTTP/" ++ r.version ++ " " ++ toString r.status ++ " " ++ msg,
          "Content-Type: " ++ r.contentType,
          "Content-Length: " ++ toString (utf8Length b),
          "Connection: close"]
         ++ r.headers.map headerLine
         ++ ["\n" ++ b]))

/-! ### Wire-parser header callback (`sketch/http_parser.py`) -/

/-- `HttpParserMixin.on_header(header, value)`: decode both byte strings and
store with `self._headers[header] = value` — a plain dict assignment of the
decoded key, with no normalization of any kind. -/
def onHeader (headers : List (String × String)) (header value : String) :
    List (String × String) :=
  dictInsert headers header value

/-! ### Connection adapter and `run_app` (`sketch/server.py`,
`sketch/application.py`) -/

/-- The per-connection state a `Server` (asyncio protocol) instance owns.
`serial` is the allocation identity of the instance (two `Server.__init__`
calls yield objects with distinct serials); the accumulators carry the
`__init__` defaults. -/
structure Server where
  serial : Nat
  url : Option String := none
  headersAcc : List (String × String) := []
  bodyAcc : Option String := none
deriving DecidableEq, Repr

/-- `Server.__init__`: a fresh instance with fresh (empty) accumulators and a
fresh allocation serial. -/
def mkServer (serial : Nat) : Server :=
  { serial := serial }

/-- The protocol factory that `run_app` hands to `loop.create_server`:
`protocol = app._make_server()` runs ONCE before serving, and the factory is
`lambda: protocol` — a constant function returning that same object for every
accepted connection (the argument numbers the connection). -/
def runAppProtocolFactory : Nat → Server :=
  let protocol := mkServer 0
  fun _connection => protocol

/-- Following the spec's words, for comparison with `runAppProtocolFactory`:
"one instance created per accepted connection" — a factory that allocates a
fresh `Server` (fresh serial, fresh accumulators) on every invocation. -/
def specProtocolFactory : Nat → Server :=
  fun connection => mkServer (connection + 1)

/-! ### Concrete fixtures used in the theorems -/

/-- Whether a resolution outcome is a raised exception. -/
def isRaised {H : Type} : ResolveOutcome H → Bool
  | .raised _ => true
  | _ => false

/-- A middleware that tags the body of the downstream response with `t`,
making invocation order observable (the spec's "order-tagging side effect in
a test double"). -/
def tagMiddleware (t : String) : Middleware := fun req h =>
  match h req with
  | .ret r => .ret { r with body := some (t ++ r.body.getD "") }
  | other => other

/-- A handler returning a fixed 200 response with body `b`. -/
def constHandler (b : String) : Handler :=
  fun _ => .ret { status := 200, body := some b }

/-- A handler that raises `e`. -/
def raisingHandler (e : PyExc) : Handler :=
  fun _ => .raise e

end Sketch

/-! ## Theorems -/

namespace Sketch

/-! ### Dictionary helper lemmas (shared) -/

/-- After a dict assignment, looking up the assigned key yields the assigned
value. -/
theorem lookup_dictInsert_self {V : Type} (l : List (String × V))
    (k : String) (v : V) : (dictInsert l k v).lookup k = some v := by
  induction l with
  | nil => simp [dictInsert, List.lookup]
  | cons kv rest ih =>
    obtain ⟨k', v'⟩ := kv
    by_cases h : k' = k
    · subst h
      simp [dictInsert, List.lookup]
    · have hb : (k == k') = false := beq_eq_false_iff_ne.mpr (Ne.symm h)
      simp [dictInsert, h, List.lookup, hb, ih]

/-- A dict assignment leaves lookups of every other key unchanged. -/
theorem lookup_dictInsert_ne {V : Type} (l : List (String × V))
    (k k' : String) (v : V) (h : k' ≠ k) :
    (dictInsert l k v).lookup k' = l.lookup k' := by
  have hb : (k' == k) = false := beq_eq_false_iff_ne.mpr h
  induction l with
  | nil => simp [dictInsert, List.lookup, hb]
  | cons kv rest ih =>
    obtain ⟨k'', v''⟩ := kv
    by_cases hk : k'' = k
    · subst hk
      simp [dictInsert, List.lookup, hb]
    · by_cases h2 : k' = k''
      · subst h2
        simp [dictInsert, hk, List.lookup]
      · have hb2 : (k' == k'') = false := beq_eq_false_iff_ne.mpr h2
        simp [dictInsert, hk, List.lookup, hb2, ih]

/-- Assigning a key absent from a dict appends the new pair at the end. -/
theorem dictInsert_eq_append {V : Type} (l : List (String × V))
    (k : String) (v : V) (h : k ∉ l.map Prod.fst) :
    dictInsert l k v = l ++ [(k, v)] := by
  induction l with
  | nil => rfl
  | cons kv rest ih =>
    obtain ⟨k', v'⟩ := kv
    simp only [List.map_cons, List.mem_cons] at h
    push_neg at h
    simp [dictInsert, Ne.symm h.1, ih h.2]

end Sketch

namespace Sketch

/-! ### Claim theorems -/

/-- Claim C1 (code bug).  The claim says route compilation keeps every
non-placeholder character of the path as literal-match text, so `/foo`
compiles to a pattern matching exactly `/foo`.  In the source,
`_format_pattern` only appends the literal slice BEFORE each placeholder and
never appends `path[last_pos:]` after the loop, so the placeholder-free path
`/foo` compiles to the EMPTY pattern, which matches every path (here `/bar`);
the spec-faithful compiler `specFormatPattern` keeps the literals and matches
exactly `/foo`. -/
theorem c1_format_pattern_drops_literal_tail :
    formatPattern "/foo" = []
    ∧ specFormatPattern "/foo" =
        [Tok.lit '/', Tok.lit 'f', Tok.lit 'o', Tok.lit 'o']
    ∧ pmatch (formatPattern "/foo") "/bar".data = some []
    ∧ pmatch (specFormatPattern "/foo") "/bar".data = none
    ∧ pmatch (specFormatPattern "/foo") "/foo".data = some []
    ∧ pmatch (specFormatPattern "/foo") "/foo".data ≠ none := by
  refine ⟨rfl, rfl, rfl, rfl, rfl, by decide⟩

/-- Claim C2 (code bug).  The resolve loop itself IS first-entry-decisive:
when the first entry's compiled pattern fails to match, a not-found error
referencing the requested path is raised no matter what later entries hold
(first conjunct, for an arbitrary tail of the table).  But the claim's own
example fails on the code: after `add_route("GET", "/foo", 1)` then
`add_route("GET", "/{x}", 2)`, resolving GET `/bar` does NOT raise not-found
— `/foo` compiled to the empty pattern (see C1), which matches `/bar`, so the
`/foo` handler is returned with an empty parameter map (second conjunct). -/
theorem c2_resolve_first_entry_decisive_but_example_fails :
    (∀ (rest : RouteTable Nat) (h : Nat),
      resolve ((("GET", [Tok.lit '/', Tok.lit 'f', Tok.lit 'o', Tok.lit 'o']),
          h) :: rest) ⟨"GET", "/bar", []⟩
        = .raised (httpNotFound (some "Could not find /bar")))
    ∧ resolve (addRoute (addRoute ([] : RouteTable Nat) "GET" "/foo" 1)
        "GET" "/{x}" 2) ⟨"GET", "/bar", []⟩ = .found [] 1 := by
  exact ⟨fun rest h => rfl, rfl⟩

/-- Claim C3, counterexample.  The claim says a GET request for
`/alice/extra` does not match the pattern `/{username}` because matching
requires the whole path.  On the code it DOES match: `re.match` is a prefix
match and the compiled pattern carries no end anchor, so resolution succeeds
with `username = "alice"` and nothing is raised. -/
theorem c3_extra_segment_still_matches :
    resolve (addRoute ([] : RouteTable Nat) "GET" "/{username}" 7)
        ⟨"GET", "/alice/extra", []⟩ = .found [("username", "alice")] 7
    ∧ isRaised (resolve (addRoute ([] : RouteTable Nat) "GET" "/{username}" 7)
        ⟨"GET", "/alice/extra", []⟩) = false := by
  exact ⟨rfl, rfl⟩

/-- Claim C3 as amended.  With the single pattern `/{username}` registered
for GET, resolving GET `/alice` returns the handler with parameter map
`{"username": "alice"}`; resolving GET `/alice/extra` ALSO resolves, with the
same parameter map, because the compiled pattern is matched as a prefix of
the request path rather than against the whole path. -/
theorem c3_username_resolution_is_prefix_based :
    resolve (addRoute ([] : RouteTable Nat) "GET" "/{username}" 7)
        ⟨"GET", "/alice", []⟩ = .found [("username", "alice")] 7
    ∧ resolve (addRoute ([] : RouteTable Nat) "GET" "/{username}" 7)
        ⟨"GET", "/alice/extra", []⟩ = .found [("username", "alice")] 7 := by
  exact ⟨rfl, rfl⟩

end Sketch

namespace Sketch

/-- Claim C4 (confirmed).  Every exception raised during route resolution or
during the middleware/handler chain is caught inside `Application._handler`
and turned into a written response, never escaping to the connection adapter:
an `HTTPException` becomes the response directly (it already is one), and any
other exception becomes a status-500, `text/html` response whose body is the
diagnostic template filled with the exception's textual description and the
formatted trace `tr`. -/
theorem c4_handler_boundary_catches_exceptions (routes : RouteTable Handler)
    (mds : List Middleware) (req : Request) (tr : String) :
    (∀ e, resolve routes req = .raised e →
      appHandler routes mds req tr = .wrote (caughtResponse tr e))
    ∧ (∀ mi h e, resolve routes req = .found mi h →
        runChain mds h { req with matchInfo := mi } = .raise e →
        appHandler routes mds req tr = .wrote (caughtResponse tr e))
    ∧ (resolve routes req = .noneReturned →
        appHandler routes mds req tr
          = .wrote (formatException unpackNoneDesc tr))
    ∧ (∀ s reason ct,
        caughtResponse tr (.http s reason ct) = httpResponse s reason ct)
    ∧ (∀ e, isHttpExc e = false →
        (caughtResponse tr e).status = 500
        ∧ (caughtResponse tr e).contentType = "text/html"
        ∧ (caughtResponse tr e).body
            = some (serverExceptionTempl (excDesc e) (replaceNewlines tr))) := by
  refine ⟨?_, ?_, ?_, ?_, ?_⟩
  · intro e he
    simp only [appHandler, he]
  · intro mi h e h1 h2
    simp only [appHandler, h1, h2]
  · intro h0
    simp only [appHandler, h0]
  · intro s reason ct
    rfl
  · intro e he
    cases e with
    | http s reason ct => simp [isHttpExc] at he
    | typeError d => exact ⟨rfl, rfl, rfl⟩
    | nameError d => exact ⟨rfl, rfl, rfl⟩
    | userError d => exact ⟨rfl, rfl, rfl⟩

/-- Witness for C4: a registered handler for `GET /` raises a generic
exception `boom`; the dispatch boundary catches it and writes the translated
response. -/
theorem c4_handler_boundary_catches_exceptions_witness :
    appHandler [(("GET", [Tok.lit '/']), raisingHandler (.userError "boom"))]
        [] ⟨"GET", "/", []⟩ "trace"
      = .wrote (caughtResponse "trace" (.userError "boom")) :=
  (c4_handler_boundary_catches_exceptions
      [(("GET", [Tok.lit '/']), raisingHandler (.userError "boom"))]
      [] ⟨"GET", "/", []⟩ "trace").2.1
    [] (raisingHandler (.userError "boom")) (.userError "boom") rfl rfl

/-- Claim C5 (code bug).  The claim says middlewares `[A, B]` are applied
with `A` outermost wrapping `B` wrapping the handler.  The chain construction
of `Application._handler` folds `handler = partial(md, handler=handler)` in
list order, so each later middleware wraps the chain built so far and the
LAST list element ends up outermost (first conjunct, for any list and any
final element).  With order-tagging middlewares `a` then `b` over a handler
producing body `"h"`, the chain produces `"bah"` — `b` ran outermost — where
the claimed `A`-outermost order would produce `"abh"` (the two orders are
distinguishable: `"bah" ≠ "abh"`). -/
theorem c5_last_middleware_wraps_outermost :
    (∀ (mds : List Middleware) (m : Middleware) (h : Handler) (req : Request),
      runChain (mds ++ [m]) h req = m req (runChain mds h))
    ∧ runChain [tagMiddleware "a", tagMiddleware "b"] (constHandler "h")
        ⟨"GET", "/", []⟩ = .ret { status := 200, body := some "bah" }
    ∧ tagMiddleware "a" ⟨"GET", "/", []⟩
        (runChain [tagMiddleware "b"] (constHandler "h"))
        = .ret { status := 200, body := some "abh" }
    ∧ (("bah" : String) == "abh") = false := by
  refine ⟨?_, rfl, rfl, by decide⟩
  intro mds m h req
  simp only [runChain, List.foldl_append, List.foldl_cons, List.foldl_nil]

end Sketch

namespace Sketch

/-- Claim C6, counterexample.  The claim says the serialized `Content-Length`
equals the body's BYTE length for every response.  The source computes
`len(self._body)` on a Python `str`, i.e. the character count: for the
one-character body `"é"` (2 bytes in UTF-8, which is what
`response_writer` encodes onto the wire) the code emits `Content-Length: 1`
while the spec-faithful serializer `specStrResponse` emits
`Content-Length: 2`, and the two wire texts differ. -/
theorem c6_content_length_counts_characters :
    strResponse { status := 200, body := some "é" }
      = .ok ("HTTP/1.1 200 OK\nContent-Type: text/plain\nContent-Length: 1\nConnection: close\n\né")
    ∧ specStrResponse { status := 200, body := some "é" }
      = .ok ("HTTP/1.1 200 OK\nContent-Type: text/plain\nContent-Length: 2\nConnection: close\n\né")
    ∧ utf8Length "é" = 2
    ∧ ("é" : String).length = 1
    ∧ (("HTTP/1.1 200 OK\nContent-Type: text/plain\nContent-Length: 1\nConnection: close\n\né" : String)
        == "HTTP/1.1 200 OK\nContent-Type: text/plain\nContent-Length: 2\nConnection: close\n\né") = false := by
  refine ⟨rfl, rfl, rfl, rfl, by decide⟩

/-- Claim C6 as amended.  For every response with a body and a status known
to the reason-phrase table, serialization produces the status line followed
by `Content-Type`, `Content-Length` equal to the body's CHARACTER count
(equal to the byte length only for ASCII bodies), and `Connection: close`,
then every user-added header in insertion order, then a blank line and the
body; in particular for status 200, body `"hello"`, content type
`text/plain`, the wire text begins with `HTTP/1.1 200 OK`, contains
`Content-Length: 5` and `Connection: close`, and ends with a blank line
followed by `hello`. -/
theorem c6_serialization_structure (v : String) (st : Nat) (b ct : String)
    (hs : List (String × String)) (msg : String)
    (hmsg : statusMessage st = some msg) :
    strResponse { version := v, status := st, body := some b,
                  contentType := ct, headers := hs }
      = .ok (String.intercalate "\n"
          (["HTTP/" ++ v ++ " " ++ toString st ++ " " ++ msg,
            "Content-Type: " ++ ct,
            "Content-Length: " ++ toString b.length,
            "Connection: close"]
           ++ hs.map headerLine ++ ["\n" ++ b]))
    ∧ strResponse { status := 200, body := some "hello" }
      = .ok ("HTTP/1.1 200 OK\nContent-Type: text/plain\nContent-Length: 5\nConnection: close"
          ++ "\n\nhello") := by
  refine ⟨?_, rfl⟩
  simp only [strResponse, hmsg]

/-- Witness for C6: the amended structure theorem applied to the concrete
`hello` response of the claim. -/
theorem c6_serialization_structure_witness :
    strResponse { version := "1.1", status := 200, body := some "hello",
                  contentType := "text/plain", headers := [] }
      = .ok (String.intercalate "\n"
          (["HTTP/" ++ "1.1" ++ " " ++ toString 200 ++ " " ++ "OK",
            "Content-Type: " ++ "text/plain",
            "Content-Length: " ++ toString ("hello" : String).length,
            "Connection: close"]
           ++ ([] : List (String × String)).map headerLine
           ++ ["\n" ++ "hello"]))
    ∧ strResponse { status := 200, body := some "hello" }
      = .ok ("HTTP/1.1 200 OK\nContent-Type: text/plain\nContent-Length: 5\nConnection: close"
          ++ "\n\nhello") :=
  c6_serialization_structure "1.1" 200 "hello" "text/plain" [] "OK" rfl

/-- Claim C7, counterexample.  The claim says header keys are case-normalized
at insertion, so two spellings differing only in case share one stored key.
`on_header` stores the decoded key verbatim: delivering `Accept` and then
`ACCEPT` — equal up to case but distinct strings — leaves TWO entries in the
header mapping. -/
theorem c7_header_keys_not_case_normalized :
    onHeader (onHeader [] "Accept" "1") "ACCEPT" "2"
      = [("Accept", "1"), ("ACCEPT", "2")]
    ∧ (onHeader (onHeader [] "Accept" "1") "ACCEPT" "2").length = 2
    ∧ (("Accept" : String) == "ACCEPT") = false
    ∧ "Accept".data.map Char.toLower = "ACCEPT".data.map Char.toLower := by
  refine ⟨rfl, rfl, by decide, by decide⟩

/-- Claim C7 as amended.  `on_header` stores each header under its decoded
key exactly as delivered (no normalization), with Python-dict semantics:
looking up the inserted key yields the new value, every other key is
untouched, and an absent key is appended at the end of the mapping. -/
theorem c7_header_keys_stored_verbatim (hs : List (String × String))
    (k v : String) :
    (onHeader hs k v).lookup k = some v
    ∧ (∀ k', k' ≠ k → (onHeader hs k v).lookup k' = hs.lookup k')
    ∧ (k ∉ hs.map Prod.fst → onHeader hs k v = hs ++ [(k, v)]) := by
  refine ⟨lookup_dictInsert_self hs k v, ?_, ?_⟩
  · intro k' h
    exact lookup_dictInsert_ne hs k k' v h
  · intro h
    exact dictInsert_eq_append hs k v h

/-- Witness for C7: inserting `Accept` into a mapping already holding `Host`
leaves `Host` readable and appends the new pair. -/
theorem c7_header_keys_stored_verbatim_witness :
    (onHeader [("Host", "x")] "Accept" "1").lookup "Accept" = some "1"
    ∧ (onHeader [("Host", "x")] "Accept" "1").lookup "Host"
        = [("Host", "x")].lookup "Host"
    ∧ onHeader [("Host", "x")] "Accept" "1"
        = [("Host", "x")] ++ [("Accept", "1")] := by
  obtain ⟨h1, h2, h3⟩ :=
    c7_header_keys_stored_verbatim [("Host", "x")] "Accept" "1"
  exact ⟨h1, h2 "Host" (by decide), h3 (by decide)⟩

end Sketch

namespace Sketch

/-- Claim C8 (code bug).  The claim says the protocol factory handed to the
server returns a fresh `Server` (fresh parser/url/headers/body accumulators)
on every invocation.  In `run_app` the source builds ONE `Server` before
serving (`protocol = app._make_server()`) and passes `lambda: protocol`: the
factory is a constant function, so every accepted connection receives the
very same object — same allocation identity, hence fully shared adapter
state — whereas the spec-faithful factory `specProtocolFactory` yields a
distinct allocation per invocation. -/
theorem c8_protocol_factory_reuses_one_server :
    (∀ i j, runAppProtocolFactory i = runAppProtocolFactory j)
    ∧ runAppProtocolFactory 0 = runAppProtocolFactory 1
    ∧ (runAppProtocolFactory 0).serial = (runAppProtocolFactory 1).serial
    ∧ (specProtocolFactory 0 == specProtocolFactory 1) = false := by
  exact ⟨fun i j => rfl, rfl, rfl, by decide⟩

/-- Claim C9 (confirmed).  Serializing any `Response` whose body is `None`
fails: `Content-Length` is computed by `len(self._body)` unconditionally,
which raises `TypeError` on `None` (an unknown status code fails even
earlier, at unpacking the reason-phrase lookup).  In particular the response
that an `HTTPNotFound` built with `reason=None` IS — status 404, empty body —
cannot be serialized to wire text. -/
theorem c9_body_none_cannot_serialize (r : Response) (h : r.body = none) :
    (∃ m, strResponse r = .error m)
    ∧ strResponse (httpResponse 404 none none)
        = .error "TypeError: object of type NoneType has no len()" := by
  refine ⟨?_, rfl⟩
  cases hs : statusMessage r.status with
  | none =>
    exact ⟨"TypeError: cannot unpack non-iterable NoneType object",
      by simp [strResponse, hs]⟩
  | some m =>
    exact ⟨"TypeError: object of type NoneType has no len()",
      by simp [strResponse, hs, h]⟩

/-- Witness for C9: the `HTTPNotFound(reason=None)` response itself. -/
theorem c9_body_none_cannot_serialize_witness :
    (∃ m, strResponse (httpResponse 404 none none) = .error m)
    ∧ strResponse (httpResponse 404 none none)
        = .error "TypeError: object of type NoneType has no len()" :=
  c9_body_none_cannot_serialize (httpResponse 404 none none) rfl

/-- Claim C10 (confirmed).  Against an empty route table, `resolve` falls
through its loop and returns `None` rather than raising `HTTPNotFound`;
`Application._handler` then fails unpacking `None` with a `TypeError`, which
the generic-failure arm converts into the 500 `text/html` diagnostic
response — the connection is answered with a 500, not a 404, whatever the
middleware list, request and ambient trace. -/
theorem c10_empty_table_yields_500_not_404 (mds : List Middleware)
    (req : Request) (tr : String) :
    resolve ([] : RouteTable Handler) req = .noneReturned
    ∧ appHandler [] mds req tr = .wrote (formatException unpackNoneDesc tr)
    ∧ (formatException unpackNoneDesc tr).status = 500
    ∧ ((formatException unpackNoneDesc tr).status == 404) = false
    ∧ (formatException unpackNoneDesc tr).contentType = "text/html" := by
  exact ⟨rfl, rfl, rfl, rfl, rfl⟩

end Sketch
